import Mathlib

/-!
Verification development for the `tool-perplexity-search` module of the
amplifier-bundle-perplexity repository.

The Python source is shallowly embedded: pure parsing, classification and
formatting functions become Lean functions; the asynchronous request layer is
modelled by passing the outcome of each upstream call (success payload or the
classified exception) as an explicit argument, and the `execute` entry point is
instrumented to also return the list of collaborator calls it issued.

Conventions used throughout the embedding:
* Python attribute values that may be missing or `None` are modelled as
  `Option`; for every field read by this code, "attribute absent" and
  "attribute present with value None" are observationally equivalent (both
  flow into the same falsy branches), so a single `none` covers both.
* Python string truthiness (`if s:`) becomes an emptiness test.
* Python `set` of seen URLs becomes a `List String` used only through
  membership and insertion.
-/

namespace Perplexity

/-- Whether `pat` is an initial segment of `s` (character lists). -/
def listLead : List Char → List Char → Bool
  | [], _ => true
  | _ :: _, [] => false
  | a :: as, b :: bs => a == b && listLead as bs

/-- Whether `pat` occurs as a contiguous sublist of `s`. -/
def listHasSub (pat : List Char) : List Char → Bool
  | [] => listLead pat []
  | c :: rest => listLead pat (c :: rest) || listHasSub pat rest

/-- Embedding of Python's `pat in s` substring test. -/
def strHasSub (s pat : String) : Bool :=
  listHasSub pat.data s.data

/-- Embedding of Python's `str.lower()`: `Char.toLower` mapped over the
character data (the same per-character map `String.toLower` performs). -/
def strLower (s : String) : String :=
  ⟨s.data.map Char.toLower⟩

/-- The closed category set of `_categorize_url`.  The source represents the
categories as the four string literals `"academic"`, `"news"`, `"docs"`,
`"other"`; the closed enumeration is faithful because `_categorize_url` is the
only producer of category values. -/
inductive Category where
  | academic
  | news
  | docs
  | other
deriving DecidableEq, Repr

/-- Academic-domain substring table of `_categorize_url`. -/
def academicDomains : List String :=
  ["arxiv.org", "doi.org", "pubmed", "springer.com", "nature.com",
   "sciencedirect", ".edu/", "acm.org", "ieee.org", "scholar.google",
   "ncbi.nlm.nih", "plos.org", "frontiersin.org", "biorxiv.org",
   "medrxiv.org", "researchgate.net", "semanticscholar.org"]

/-- Documentation-domain substring table of `_categorize_url`. -/
def docsDomains : List String :=
  ["docs.", "/docs/", "documentation", "readme", "github.com",
   "gitlab.com", "api.", "developer.", "devdocs"]

/-- News-domain substring table of `_categorize_url`. -/
def newsDomains : List String :=
  ["techcrunch", "wired.com", "theverge", "arstechnica", "bbc.", "cnn.",
   "reuters.", "nytimes", "wsj.com", "bloomberg.", "/news/", "/blog/",
   "medium.com", "substack.com", "venturebeat", "thenextweb"]

/-- Embedding of `PerplexityResearchTool._categorize_url` (fallback-capable
variant, `amplifier_module_tool_perplexity_search/__init__.py`). -/
def categorizeUrl (url : String) : Category :=
  let urlLower := strLower url
  if academicDomains.any (fun d => strHasSub urlLower d) then .academic
  else if docsDomains.any (fun d => strHasSub urlLower d) then .docs
  else if newsDomains.any (fun d => strHasSub urlLower d) then .news
  else .other

/-- A citation record as built by `_parse_response` / `_execute_chat`:
`{"url": ..., "title": ..., "category": ...}`. -/
structure Citation where
  url : String
  title : String
  category : Category
deriving DecidableEq, Repr

/-- Usage dict as built by the parsers (all three keys always set). -/
structure Usage where
  inputTokens : Nat
  outputTokens : Nat
  totalTokens : Nat
deriving DecidableEq, Repr

/-- Top-level `response.error` object (`code` / `message`). -/
structure RespError where
  code : String
  message : String
deriving DecidableEq, Repr

/-- `response.usage` of the deep-research shape; fields may be `None`. -/
structure RespUsage where
  inputTokens : Option Nat
  outputTokens : Option Nat
deriving DecidableEq, Repr

/-- A citation-annotation object attached to a text content block.
`none` covers both a missing attribute and an attribute holding `None`;
the two are observationally equal through `_parse_response`. -/
structure Annot where
  url : Option String
  title : Option String
deriving DecidableEq, Repr

/-- A content block of a `message` output item (`type` / `text` / annots). -/
structure ContentBlock where
  type : Option String
  text : Option String
  annots : Option (List Annot)
deriving DecidableEq, Repr

/-- One record of a `search_results` / `fetch_url_results` output item.
The `fetch_url_results` branch never reads `name`. -/
structure SearchResult where
  url : Option String
  title : Option String
  name : Option String
deriving DecidableEq, Repr

/-- The tagged union of output item kinds walked by `_parse_response`.
`otherItem` stands for any unrecognized `type` tag, which the walk ignores.
A missing `content` / `results` attribute defaults to `[]` in the source and
is identified with the empty list here. -/
inductive OutputItem where
  | message (content : List ContentBlock)
  | searchResults (results : List SearchResult)
  | fetchUrlResults (results : List SearchResult)
  | otherItem
deriving DecidableEq, Repr

/-- The typed deep-research response consumed by `_parse_response`. -/
structure RawResponse where
  model : String
  status : String
  error : Option RespError
  output : List OutputItem
  usage : Option RespUsage
deriving DecidableEq, Repr

/-- The structured result dict produced by `_parse_response` and consumed by
`_format_structured_output`.  `usage = none` models the empty usage dict. -/
structure Result where
  content : String
  citations : List Citation
  usage : Option Usage
  model : String
  status : String
  error : Option RespError
deriving DecidableEq, Repr

/-- Display title for an annotation or fetch-result citation: the source
computes `title if title and title != url else "Untitled"`, where `title`
fell back to the url itself when the attribute was absent. -/
def citeTitle (u : String) (t : Option String) : String :=
  match t with
  | some s => if s ≠ "" ∧ s ≠ u then s else "Untitled"
  | none => "Untitled"

/-- Display title for a `search_results` citation: the source computes
`title = getattr(r, "title", None) or getattr(r, "name", url)` and then the
same untitled-check as `citeTitle`.  A `none` intermediate covers both the
Python `None` title and the absent-`name` fallback to `url` (both of which
the final check maps to `"Untitled"`). -/
def searchTitle (u : String) (t n : Option String) : String :=
  let raw : Option String :=
    match t with
    | some s => if s = "" then n else some s
    | none => n
  match raw with
  | some s => if s ≠ "" ∧ s ≠ u then s else "Untitled"
  | none => "Untitled"

/-- Mutable state threaded through the `_parse_response` walk:
`text_parts`, `citations`, `seen_urls`. -/
structure ParseState where
  textParts : List String
  citations : List Citation
  seenUrls : List String
deriving DecidableEq, Repr

/-- One annotation of a text block: candidate citation guarded by
`if url and url not in seen_urls`. -/
def processAnnot (st : ParseState) (a : Annot) : ParseState :=
  match a.url with
  | some u =>
      if u ≠ "" ∧ ¬ u ∈ st.seenUrls then
        { st with
          citations := st.citations ++ [⟨u, citeTitle u a.title, categorizeUrl u⟩],
          seenUrls := u :: st.seenUrls }
      else st
  | none => st

/-- One content block of a `message` item: text collection plus annotations. -/
def processBlock (st : ParseState) (b : ContentBlock) : ParseState :=
  if b.type = some "output_text" ∨ b.type = some "text" then
    let t := b.text.getD ""
    let st := if t ≠ "" then { st with textParts := st.textParts ++ [t] } else st
    (b.annots.getD []).foldl processAnnot st
  else st

/-- One record of a `search_results` item. -/
def processSearchResult (st : ParseState) (r : SearchResult) : ParseState :=
  match r.url with
  | some u =>
      if u ≠ "" ∧ ¬ u ∈ st.seenUrls then
        { st with
          citations := st.citations ++ [⟨u, searchTitle u r.title r.name, categorizeUrl u⟩],
          seenUrls := u :: st.seenUrls }
      else st
  | none => st

/-- One record of a `fetch_url_results` item
(`title = getattr(r, "title", None) or url`, then the untitled-check). -/
def processFetchResult (st : ParseState) (r : SearchResult) : ParseState :=
  match r.url with
  | some u =>
      if u ≠ "" ∧ ¬ u ∈ st.seenUrls then
        { st with
          citations := st.citations ++ [⟨u, citeTitle u r.title, categorizeUrl u⟩],
          seenUrls := u :: st.seenUrls }
      else st
  | none => st

/-- One output item of the walk; unknown kinds are ignored. -/
def processItem (st : ParseState) : OutputItem → ParseState
  | .message content => content.foldl processBlock st
  | .searchResults results => results.foldl processSearchResult st
  | .fetchUrlResults results => results.foldl processFetchResult st
  | .otherItem => st

/-- Embedding of `PerplexityResearchTool._parse_response` (fallback-capable
variant).  Deep-research usage computes `total_tokens` as the sum of the
defaulted operands. -/
def parseResponse (response : RawResponse) : Result :=
  let st := response.output.foldl processItem ⟨[], [], []⟩
  { content := String.intercalate "\n" st.textParts
    citations := st.citations
    usage := response.usage.map (fun u =>
      ⟨u.inputTokens.getD 0, u.outputTokens.getD 0,
       u.inputTokens.getD 0 + u.outputTokens.getD 0⟩)
    model := response.model
    status := response.status
    error := response.error }

/-- The four per-category accumulation lists of `_format_structured_output`
(`by_category`). -/
structure Buckets where
  academic : List (Nat × Citation)
  news : List (Nat × Citation)
  docs : List (Nat × Citation)
  other : List (Nat × Citation)
deriving DecidableEq, Repr

/-- The empty `by_category` dict. -/
def Buckets.empty : Buckets := ⟨[], [], [], []⟩

/-- One step of the grouping loop
`by_category[citation["category"]].append((i, citation))`. -/
def addToBuckets (b : Buckets) (ic : Nat × Citation) : Buckets :=
  match ic.2.category with
  | .academic => { b with academic := b.academic ++ [ic] }
  | .news => { b with news := b.news ++ [ic] }
  | .docs => { b with docs := b.docs ++ [ic] }
  | .other => { b with other := b.other ++ [ic] }

/-- List concatenation of per-element renderings (loop with two appends per
kept citation). -/
def concatMap (f : α → List β) : List α → List β
  | [] => []
  | a :: as => f a ++ concatMap f as

/-- Rendering of one numbered citation inside a group; citations with an
empty url are skipped (`if not url: continue`). -/
def renderEntry (ic : Nat × Citation) : List String :=
  if ic.2.url = "" then []
  else ["- [" ++ toString ic.1 ++ "] " ++ ic.2.title, "  URL: " ++ ic.2.url]

/-- Rendering of one category group: heading plus entries, emitted only when
the group's bucket is non-empty. -/
def renderGroup (pairs : List (Nat × Citation)) (heading : String) : List String :=
  if pairs ≠ [] then ("\n" ++ heading) :: concatMap renderEntry pairs else []

/-- Embedding of `PerplexityResearchTool._format_structured_output`.
Display order of the groups follows the `category_names` dict:
academic, news, docs, other. -/
def formatStructuredOutput (result : Result) : String :=
  let parts : List String := [result.content]
  let citations := result.citations
  let parts :=
    if citations ≠ [] then
      let parts := parts ++ ["\n\n## References\n"]
      let byCat := (List.enumFrom 1 citations).foldl addToBuckets Buckets.empty
      parts
        ++ renderGroup byCat.academic "### Academic Sources"
        ++ renderGroup byCat.news "### News & Industry"
        ++ renderGroup byCat.docs "### Documentation"
        ++ renderGroup byCat.other "### Other Sources"
    else parts
  let parts :=
    match result.usage with
    | some u => parts ++ ["\n\n---\nTokens: " ++ toString u.totalTokens]
    | none => parts
  String.intercalate "\n" parts

/-- `message` object of the first chat choice. -/
structure ChatMessage where
  content : Option String
  citations : Option (List String)
deriving DecidableEq, Repr

/-- One element of `response.choices`. -/
structure ChatChoice where
  message : ChatMessage
deriving DecidableEq, Repr

/-- `response.usage` of the chat shape; fields may be `None`. -/
structure ChatUsage where
  promptTokens : Option Nat
  completionTokens : Option Nat
  totalTokens : Option Nat
deriving DecidableEq, Repr

/-- A chat-completions response. -/
structure ChatResponse where
  choices : List ChatChoice
  usage : Option ChatUsage
deriving DecidableEq, Repr

/-- One step of the chat citation loop
(`if url not in [c["url"] for c in citations]`). -/
def addChatCitation (acc : List Citation) (url : String) : List Citation :=
  if url ∈ acc.map (fun c => c.url) then acc
  else acc ++ [⟨url, "Citation", categorizeUrl url⟩]

/-- The successful-path result dict built inside `_execute_chat`: content and
citations from the first choice, usage copied field by field with the
upstream-reported total trusted as-is. -/
def chatSuccessResult (model : String) (response : ChatResponse) : Result :=
  let contentAndCites : String × List Citation :=
    match response.choices with
    | [] => ("", [])
    | choice :: _ =>
        let content := choice.message.content.getD ""
        let citations :=
          match choice.message.citations with
          | some urls => if urls ≠ [] then urls.foldl addChatCitation [] else []
          | none => []
        (content, citations)
  { content := contentAndCites.1
    citations := contentAndCites.2
    usage := response.usage.map (fun u =>
      ⟨u.promptTokens.getD 0, u.completionTokens.getD 0, u.totalTokens.getD 0⟩)
    model := model
    status := "completed"
    error := none }

/-- Error dict of a `ToolResult` (`{"message": ...}`). -/
structure ErrMsg where
  message : String
deriving DecidableEq, Repr

/-- The outcome record returned to the host. -/
structure ToolResult where
  success : Bool
  output : String
  error : Option ErrMsg
deriving DecidableEq, Repr

/-- Which `except` clause of `_execute_research` fires for a failed research
request, with the data each handler reads.  `status` carries the numeric
status code and the optional non-empty `message` attribute. -/
inductive ResearchFailure where
  | rateLimit (msg : String)
  | timeout
  | badRequest (msg : String)
  | status (code : Nat) (msg : Option String)
  | connection (msg : String)
  | other (msg : String)
deriving DecidableEq, Repr

/-- Which `except` clause of `_execute_chat` fires for a failed chat request.
Timeout and connection failures have no dedicated clause there and land in
the generic handler (`other`). -/
inductive ChatFailure where
  | rateLimit (msg : String)
  | status (code : Nat) (msg : Option String)
  | other (msg : String)
deriving DecidableEq, Repr

/-- Tool configuration defaults read by `execute`; `timeoutStr` is the decimal
rendering of the configured float timeout used inside the timeout message. -/
structure Config where
  reasoningEffort : String
  maxSteps : Nat
  timeoutStr : String
deriving DecidableEq, Repr

/-- Embedding of `PerplexityResearchTool._execute_research`: the upstream call
outcome is passed in; every failure is mapped to a failed `ToolResult`. -/
def executeResearch (cfg : Config)
    (outcome : Except ResearchFailure RawResponse) : ToolResult :=
  match outcome with
  | .ok response =>
      let result := parseResponse response
      let output := formatStructuredOutput result
      ⟨true, output, none⟩
  | .error e =>
      match e with
      | .rateLimit msg =>
          let m := "Rate limited: " ++ msg
          ⟨false, m, some ⟨m⟩⟩
      | .timeout =>
          let m := "Research request timed out after " ++ cfg.timeoutStr ++ "s"
          ⟨false, m, some ⟨m⟩⟩
      | .badRequest msg =>
          let m := "Invalid request: " ++ msg
          ⟨false, m, some ⟨m⟩⟩
      | .status code msg =>
          let base := "API error " ++ toString code
          let m := match msg with
            | some s => if s ≠ "" then base ++ ": " ++ s else base
            | none => base
          ⟨false, m, some ⟨m⟩⟩
      | .connection msg =>
          ⟨false, "", some ⟨"Connection error: " ++ msg⟩⟩
      | .other msg =>
          ⟨false, "", some ⟨"Research failed: " ++ msg⟩⟩

/-- Embedding of `PerplexityResearchTool._execute_chat`: the upstream call
outcome is passed in; a successful formatted output is prefixed by the
fallback annotation line when one was supplied. -/
def executeChat (model : String) (fallbackNote : String)
    (outcome : Except ChatFailure ChatResponse) : ToolResult :=
  match outcome with
  | .ok response =>
      let result := chatSuccessResult model response
      let output := formatStructuredOutput result
      let output :=
        if fallbackNote ≠ "" then fallbackNote ++ "\n\n" ++ output else output
      ⟨true, output, none⟩
  | .error e =>
      match e with
      | .rateLimit msg =>
          let m := "Chat rate limited: " ++ msg
          ⟨false, m, some ⟨m⟩⟩
      | .status code msg =>
          let base := "Chat API error " ++ toString code
          let m := match msg with
            | some s => if s ≠ "" then base ++ ": " ++ s else base
            | none => base
          ⟨false, m, some ⟨m⟩⟩
      | .other msg =>
          ⟨false, "", some ⟨"Chat failed: " ++ msg⟩⟩

/-- The trigger substrings of the auto-mode fallback check. -/
def fallbackTriggers : List String :=
  ["rate limit", "quota", "429", "insufficient"]

/-- `any(trigger in error_msg.lower() for trigger in [...])`. -/
def shouldFallback (errorMsg : String) : Bool :=
  fallbackTriggers.any (fun trigger => strHasSub (strLower errorMsg) trigger)

/-- Tool input dict as read by `execute`; `none` models an absent key (a key
present with value `None` behaves identically through every read below). -/
structure ExecInput where
  query : Option String
  mode : Option String
  model : Option String
  reasoningEffort : Option String
  maxSteps : Option Nat
  instructions : Option String
deriving DecidableEq, Repr

/-- The all-absent input dict `{}`. -/
def ExecInput.empty : ExecInput := ⟨none, none, none, none, none, none⟩

/-- `instructions` resolution: a missing or empty value falls back to the
default instruction string. -/
def resolvedInstructions (input : ExecInput) : String :=
  match input.instructions with
  | some s =>
      if s ≠ "" then s
      else "Provide thorough, well-researched answers with citations."
  | none => "Provide thorough, well-researched answers with citations."

/-- The outcomes the two collaborator request functions would produce for this
request; each is consulted at most once per `execute` invocation. -/
structure Env where
  research : Except ResearchFailure RawResponse
  chat : Except ChatFailure ChatResponse

/-- Arguments of one `_execute_research` invocation. -/
structure ResearchCall where
  query : String
  reasoningEffort : String
  maxSteps : Nat
  instructions : String
deriving DecidableEq, Repr

/-- Arguments of one `_execute_chat` invocation. -/
structure ChatCall where
  query : String
  model : String
  instructions : String
  fallbackNote : String
deriving DecidableEq, Repr

/-- Collaborator invocations issued while serving one request, in order. -/
structure Trace where
  researchCalls : List ResearchCall
  chatCalls : List ChatCall
deriving DecidableEq, Repr

/-- The failed outcome for a missing or empty `query`. -/
def missingQueryResult : ToolResult :=
  ⟨false, "", some ⟨"Missing required parameter: query"⟩⟩

/-- Embedding of `PerplexityResearchTool.execute` (fallback-capable variant),
instrumented to also return the collaborator calls it issued.  Mode dispatch:
`"chat"` and `"research"` run a single attempt; anything else takes the
auto path (research first, one conditional chat fallback). -/
def execute (cfg : Config) (env : Env) (input : ExecInput) : ToolResult × Trace :=
  match input.query with
  | none => (missingQueryResult, ⟨[], []⟩)
  | some query =>
      if query = "" then (missingQueryResult, ⟨[], []⟩)
      else
        let mode := input.mode.getD "auto"
        let model := input.model.getD "sonar-pro"
        let reasoningEffort := input.reasoningEffort.getD cfg.reasoningEffort
        let maxSteps := input.maxSteps.getD cfg.maxSteps
        let instructions := resolvedInstructions input
        if mode = "chat" then
          (executeChat model "" env.chat,
           ⟨[], [⟨query, model, instructions, ""⟩]⟩)
        else if mode = "research" then
          (executeResearch cfg env.research,
           ⟨[⟨query, reasoningEffort, maxSteps, instructions⟩], []⟩)
        else
          let result := executeResearch cfg env.research
          if !result.success && result.error.isSome then
            let errorMsg := (result.error.getD ⟨""⟩).message
            if shouldFallback errorMsg then
              let note := "(Fallback from Research API: " ++ errorMsg ++ ")"
              (executeChat model note env.chat,
               ⟨[⟨query, reasoningEffort, maxSteps, instructions⟩],
                [⟨query, model, instructions, note⟩]⟩)
            else
              (result, ⟨[⟨query, reasoningEffort, maxSteps, instructions⟩], []⟩)
          else
            (result, ⟨[⟨query, reasoningEffort, maxSteps, instructions⟩], []⟩)

/-- The fallback condition of the auto path, as the source checks it:
the attempt failed, carries an error dict, and the error message matches a
trigger substring. -/
def fallbackTriggered (r : ToolResult) : Bool :=
  !r.success &&
    (match r.error with
     | some e => shouldFallback e.message
     | none => false)

/-- Lazily-created client handle state of the tool instance
(`self._api_key` / `self._client`). -/
structure ClientState where
  apiKey : Option String
  client : Option Nat
deriving DecidableEq, Repr

/-- Embedding of the `client` property: return the existing handle, or create
one when an api key is configured, or raise `ValueError`.  The `Nat` handle id
distinguishes freshly created clients. -/
def clientGet (fresh : Nat) (s : ClientState) :
    Except String (Nat × ClientState) :=
  match s.client with
  | some c => .ok (c, s)
  | none =>
      match s.apiKey with
      | none => .error "api_key must be provided for API calls"
      | some _ => .ok (fresh, { s with client := some fresh })

/-- Embedding of `close`: release the handle when present; always succeeds. -/
def closeClient (s : ClientState) : ClientState :=
  { s with client := none }

namespace SingleMode

/-!
Embedding of the preset-based single-mode variant
(`src/modules/tool-perplexity-search/__init__.py`, lines 296-484): its own
`_categorize_url` and `_parse_response`, over the same SDK response types.
-/

/-- `_categorize_url` of the single-mode variant. -/
def categorizeUrl (url : String) : Category :=
  let urlLower := strLower url
  if academicDomains.any (fun d => strHasSub urlLower d) then .academic
  else if docsDomains.any (fun d => strHasSub urlLower d) then .docs
  else if newsDomains.any (fun d => strHasSub urlLower d) then .news
  else .other

/-- Annotation step of the single-mode variant's walk. -/
def processAnnot (st : ParseState) (a : Annot) : ParseState :=
  match a.url with
  | some u =>
      if u ≠ "" ∧ ¬ u ∈ st.seenUrls then
        { st with
          citations := st.citations ++ [⟨u, citeTitle u a.title, SingleMode.categorizeUrl u⟩],
          seenUrls := u :: st.seenUrls }
      else st
  | none => st

/-- Content-block step of the single-mode variant's walk. -/
def processBlock (st : ParseState) (b : ContentBlock) : ParseState :=
  if b.type = some "output_text" ∨ b.type = some "text" then
    let t := b.text.getD ""
    let st := if t ≠ "" then { st with textParts := st.textParts ++ [t] } else st
    (b.annots.getD []).foldl SingleMode.processAnnot st
  else st

/-- Search-result step of the single-mode variant's walk. -/
def processSearchResult (st : ParseState) (r : SearchResult) : ParseState :=
  match r.url with
  | some u =>
      if u ≠ "" ∧ ¬ u ∈ st.seenUrls then
        { st with
          citations := st.citations ++ [⟨u, searchTitle u r.title r.name, SingleMode.categorizeUrl u⟩],
          seenUrls := u :: st.seenUrls }
      else st
  | none => st

/-- Fetch-result step of the single-mode variant's walk. -/
def processFetchResult (st : ParseState) (r : SearchResult) : ParseState :=
  match r.url with
  | some u =>
      if u ≠ "" ∧ ¬ u ∈ st.seenUrls then
        { st with
          citations := st.citations ++ [⟨u, citeTitle u r.title, SingleMode.categorizeUrl u⟩],
          seenUrls := u :: st.seenUrls }
      else st
  | none => st

/-- Output-item step of the single-mode variant's walk. -/
def processItem (st : ParseState) : OutputItem → ParseState
  | .message content => content.foldl SingleMode.processBlock st
  | .searchResults results => results.foldl SingleMode.processSearchResult st
  | .fetchUrlResults results => results.foldl SingleMode.processFetchResult st
  | .otherItem => st

/-- `_parse_response` of the single-mode variant. -/
def parseResponse (response : RawResponse) : Result :=
  let st := response.output.foldl SingleMode.processItem ⟨[], [], []⟩
  { content := String.intercalate "\n" st.textParts
    citations := st.citations
    usage := response.usage.map (fun u =>
      ⟨u.inputTokens.getD 0, u.outputTokens.getD 0,
       u.inputTokens.getD 0 + u.outputTokens.getD 0⟩)
    model := response.model
    status := response.status
    error := response.error }

end SingleMode

/-!
Spec-side characterizations, written from the spec's words to be compared
with the source embeddings: the flat candidate-citation walk plus a global
first-occurrence deduplication, and the per-category filter view of the
reference grouping.
-/

/-- The candidate citation an annotation contributes, before deduplication. -/
def annotCandidate (a : Annot) : Option Citation :=
  match a.url with
  | some u =>
      if u ≠ "" then some ⟨u, citeTitle u a.title, categorizeUrl u⟩ else none
  | none => none

/-- The candidate citation a search-result record contributes. -/
def searchCandidate (r : SearchResult) : Option Citation :=
  match r.url with
  | some u =>
      if u ≠ "" then some ⟨u, searchTitle u r.title r.name, categorizeUrl u⟩
      else none
  | none => none

/-- The candidate citation a fetch-result record contributes. -/
def fetchCandidate (r : SearchResult) : Option Citation :=
  match r.url with
  | some u =>
      if u ≠ "" then some ⟨u, citeTitle u r.title, categorizeUrl u⟩ else none
  | none => none

/-- All candidate citations of one content block, in walk order. -/
def blockCandidates (b : ContentBlock) : List Citation :=
  if b.type = some "output_text" ∨ b.type = some "text" then
    (b.annots.getD []).filterMap annotCandidate
  else []

/-- All candidate citations of one output item, in walk order. -/
def itemCandidates : OutputItem → List Citation
  | .message content => concatMap blockCandidates content
  | .searchResults results => results.filterMap searchCandidate
  | .fetchUrlResults results => results.filterMap fetchCandidate
  | .otherItem => []

/-- All candidate citations of a response, in walk order, before
deduplication. -/
def candidates (response : RawResponse) : List Citation :=
  concatMap itemCandidates response.output

/-- Global first-occurrence deduplication by url: the first candidate with a
given url is kept unchanged, every later candidate with that url is dropped. -/
def dedupFirst : List Citation → List Citation
  | [] => []
  | c :: rest =>
      c :: dedupFirst (rest.filter (fun x => decide (x.url ≠ c.url)))
termination_by l => l.length
decreasing_by
  exact Nat.lt_succ_of_le (List.length_filter_le _ _)

/-- First-occurrence deduplication relative to a set of already-seen urls. -/
def dedupFirstAux (seen : List String) : List Citation → List Citation
  | [] => []
  | c :: rest =>
      if c.url ∈ seen then dedupFirstAux seen rest
      else c :: dedupFirstAux (c.url :: seen) rest

/-- The `(citations, seen_urls)` components of the walk state. -/
def citePair (st : ParseState) : List Citation × List String :=
  (st.citations, st.seenUrls)

/-- One candidate pushed through the shared seen-url check. -/
def pushCite (p : List Citation × List String) (c : Citation) :
    List Citation × List String :=
  if c.url ∈ p.2 then p else (p.1 ++ [c], c.url :: p.2)

/-- `pushCite` lifted to an optional candidate. -/
def pushCiteOpt (p : List Citation × List String) :
    Option Citation → List Citation × List String
  | some c => pushCite p c
  | none => p

/-- Per-category filter view of the reference grouping: the group of `cat` is
the globally-enumerated citation list filtered to that category. -/
def specGroup (citations : List Citation) (cat : Category) (heading : String) :
    List String :=
  renderGroup
    ((List.enumFrom 1 citations).filter (fun ic => decide (ic.2.category = cat)))
    heading

/-- Spec-side formatter: content, then (for a non-empty citation list) the
`## References` heading and the four filter-derived groups in display order
academic, news, docs, other, then the usage trailer. -/
def specFormat (r : Result) : String :=
  String.intercalate "\n"
    (r.content ::
      ((if r.citations ≠ [] then
          "\n\n## References\n" ::
            (specGroup r.citations .academic "### Academic Sources" ++
             specGroup r.citations .news "### News & Industry" ++
             specGroup r.citations .docs "### Documentation" ++
             specGroup r.citations .other "### Other Sources")
        else []) ++
       (match r.usage with
        | some u => ["\n\n---\nTokens: " ++ toString u.totalTokens]
        | none => [])))

/-! ### Grouping pass versus per-category filter -/

lemma foldl_addToBuckets (l : List (Nat × Citation)) (b : Buckets) :
    l.foldl addToBuckets b =
      ⟨b.academic ++ l.filter (fun ic => decide (ic.2.category = .academic)),
       b.news ++ l.filter (fun ic => decide (ic.2.category = .news)),
       b.docs ++ l.filter (fun ic => decide (ic.2.category = .docs)),
       b.other ++ l.filter (fun ic => decide (ic.2.category = .other))⟩ := by
  induction l generalizing b with
  | nil => simp
  | cons ic rest ih =>
      rw [List.foldl_cons, ih]
      cases hc : ic.2.category <;>
        simp [addToBuckets, hc, List.filter_cons]

/-- The source formatter agrees with the filter-based spec formatter on every
result. -/
lemma format_eq_specFormat (r : Result) :
    formatStructuredOutput r = specFormat r := by
  unfold formatStructuredOutput specFormat specGroup
  by_cases h : r.citations = []
  · simp only [h]
    cases r.usage <;> simp
  · simp only [h, foldl_addToBuckets, Buckets.empty, ne_eq, not_false_eq_true,
      if_true, List.nil_append]
    cases r.usage <;> simp

/-! ### The citation walk versus global first-occurrence deduplication -/

lemma citePair_processAnnot (st : ParseState) (a : Annot) :
    citePair (processAnnot st a) = pushCiteOpt (citePair st) (annotCandidate a) := by
  unfold processAnnot annotCandidate
  cases a.url with
  | none => rfl
  | some u =>
      by_cases h1 : u = ""
      · simp [h1, pushCiteOpt]
      · by_cases h2 : u ∈ st.seenUrls
        · simp [h1, h2, pushCiteOpt, pushCite, citePair]
        · simp [h1, h2, pushCiteOpt, pushCite, citePair]

lemma citePair_processSearchResult (st : ParseState) (r : SearchResult) :
    citePair (processSearchResult st r) =
      pushCiteOpt (citePair st) (searchCandidate r) := by
  unfold processSearchResult searchCandidate
  cases r.url with
  | none => rfl
  | some u =>
      by_cases h1 : u = ""
      · simp [h1, pushCiteOpt]
      · by_cases h2 : u ∈ st.seenUrls
        · simp [h1, h2, pushCiteOpt, pushCite, citePair]
        · simp [h1, h2, pushCiteOpt, pushCite, citePair]

lemma citePair_processFetchResult (st : ParseState) (r : SearchResult) :
    citePair (processFetchResult st r) =
      pushCiteOpt (citePair st) (fetchCandidate r) := by
  unfold processFetchResult fetchCandidate
  cases r.url with
  | none => rfl
  | some u =>
      by_cases h1 : u = ""
      · simp [h1, pushCiteOpt]
      · by_cases h2 : u ∈ st.seenUrls
        · simp [h1, h2, pushCiteOpt, pushCite, citePair]
        · simp [h1, h2, pushCiteOpt, pushCite, citePair]

lemma citePair_foldl_of_step {α : Type} (f : ParseState → α → ParseState)
    (g : α → Option Citation)
    (hf : ∀ st a, citePair (f st a) = pushCiteOpt (citePair st) (g a)) :
    ∀ (l : List α) (st : ParseState),
      citePair (l.foldl f st) = (l.filterMap g).foldl pushCite (citePair st) := by
  intro l
  induction l with
  | nil => intro st; rfl
  | cons a rest ih =>
      intro st
      rw [List.foldl_cons, ih, hf, List.filterMap_cons]
      cases g a <;> simp [pushCiteOpt]

lemma citePair_foldl_of_list_step {α : Type} (f : ParseState → α → ParseState)
    (g : α → List Citation)
    (hf : ∀ st a, citePair (f st a) = (g a).foldl pushCite (citePair st)) :
    ∀ (l : List α) (st : ParseState),
      citePair (l.foldl f st) =
        (concatMap g l).foldl pushCite (citePair st) := by
  intro l
  induction l with
  | nil => intro st; rfl
  | cons a rest ih =>
      intro st
      rw [List.foldl_cons, ih, hf, concatMap, List.foldl_append]

lemma citePair_processBlock (st : ParseState) (b : ContentBlock) :
    citePair (processBlock st b) =
      (blockCandidates b).foldl pushCite (citePair st) := by
  unfold processBlock blockCandidates
  by_cases h : b.type = some "output_text" ∨ b.type = some "text"
  · simp only [h, if_true]
    have htext :
        citePair (if (b.text.getD "") ≠ "" then
            { st with textParts := st.textParts ++ [b.text.getD ""] }
          else st) = citePair st := by
      split <;> rfl
    rw [citePair_foldl_of_step processAnnot annotCandidate citePair_processAnnot,
      htext]
  · simp [h]

lemma citePair_processItem (st : ParseState) (it : OutputItem) :
    citePair (processItem st it) =
      (itemCandidates it).foldl pushCite (citePair st) := by
  cases it with
  | message content =>
      exact citePair_foldl_of_list_step processBlock blockCandidates
        citePair_processBlock content st
  | searchResults results =>
      exact citePair_foldl_of_step processSearchResult searchCandidate
        citePair_processSearchResult results st
  | fetchUrlResults results =>
      exact citePair_foldl_of_step processFetchResult fetchCandidate
        citePair_processFetchResult results st
  | otherItem => rfl

lemma foldl_pushCite_fst (cs : List Citation) (acc : List Citation)
    (seen : List String) :
    (cs.foldl pushCite (acc, seen)).1 = acc ++ dedupFirstAux seen cs := by
  induction cs generalizing acc seen with
  | nil => simp [dedupFirstAux]
  | cons c rest ih =>
      rw [List.foldl_cons]
      by_cases h : c.url ∈ seen
      · simp [pushCite, h, dedupFirstAux, ih]
      · simp [pushCite, h, dedupFirstAux, ih]

lemma dedupFirst_nil : dedupFirst [] = [] := by
  rw [dedupFirst.eq_def]

lemma dedupFirst_cons (c : Citation) (rest : List Citation) :
    dedupFirst (c :: rest) =
      c :: dedupFirst (rest.filter (fun x => decide (x.url ≠ c.url))) := by
  rw [dedupFirst.eq_def]

lemma dedupFirstAux_eq_dedupFirst_filter (cs : List Citation)
    (seen : List String) :
    dedupFirstAux seen cs =
      dedupFirst (cs.filter (fun x => decide (¬ x.url ∈ seen))) := by
  induction cs generalizing seen with
  | nil => simp [dedupFirstAux, dedupFirst_nil]
  | cons c rest ih =>
      by_cases h : c.url ∈ seen
      · simp [dedupFirstAux, h, List.filter_cons, ih]
      · have hp : (fun x : Citation => decide (¬ x.url ∈ c.url :: seen)) =
            (fun x : Citation =>
              decide (x.url ≠ c.url) && decide (¬ x.url ∈ seen)) := by
          funext x
          by_cases h1 : x.url = c.url <;> by_cases h2 : x.url ∈ seen <;>
            simp [h1, h2]
        have hfilter :
            List.filter (fun x : Citation => decide (¬ x.url ∈ seen))
                (c :: rest) =
              c :: List.filter (fun x => decide (¬ x.url ∈ seen)) rest := by
          simp [List.filter_cons, h]
        rw [hfilter, dedupFirst_cons, List.filter_filter]
        simp only [dedupFirstAux, h, if_false]
        rw [ih (c.url :: seen), hp]

/-- The citation list of `_parse_response` is exactly the global
first-occurrence deduplication of the flat candidate walk. -/
lemma parseResponse_citations_eq (r : RawResponse) :
    (parseResponse r).citations = dedupFirst (candidates r) := by
  have h := citePair_foldl_of_list_step processItem itemCandidates
    citePair_processItem r.output ⟨[], [], []⟩
  have hfst : (parseResponse r).citations =
      ((concatMap itemCandidates r.output).foldl pushCite ([], [])).1 := by
    unfold parseResponse
    have : (citePair (r.output.foldl processItem ⟨[], [], []⟩)).1 =
        ((concatMap itemCandidates r.output).foldl pushCite
          (citePair ⟨[], [], []⟩)).1 := by rw [h]
    simpa [citePair] using this
  rw [hfst]
  unfold candidates
  rw [foldl_pushCite_fst, dedupFirstAux_eq_dedupFirst_filter]
  simp

/-! ### Claim theorems -/

/-- C2: the normalizer maintains one seen-URL set across the entire walk over
all output item kinds: its citation list equals the global first-occurrence
deduplication (by url, first-seen title kept, later duplicates dropped, order
of first occurrence) of the flat candidate walk; in particular two annotations
with the same url and different titles yield exactly one `Citation` bearing
the first-seen title. -/
theorem claim_C2_single_seen_set :
    (∀ r : RawResponse,
      (parseResponse r).citations = dedupFirst (candidates r)) ∧
    (parseResponse
        ⟨"m", "completed", none,
         [.message [⟨some "output_text", some "T",
            some [⟨some "https://x", some "First"⟩,
                  ⟨some "https://x", some "Second"⟩]⟩]],
         none⟩).citations =
      [⟨"https://x", "First", Category.other⟩] :=
  ⟨parseResponse_citations_eq, by decide⟩

lemma any_domain_true {u : String} (doms : List String) (d : String)
    (hd : d ∈ doms) (h : strHasSub u d = true) :
    doms.any (fun x => strHasSub u x) = true :=
  List.any_eq_true.mpr ⟨d, hd, h⟩

lemma any_domain_false {u : String} (doms : List String)
    (h : ∀ d ∈ doms, strHasSub u d = false) :
    doms.any (fun x => strHasSub u x) = false := by
  rw [List.any_eq_false]
  intro d hd
  simp [h d hd]

/-- C4 (amended): the URL classifier is a total deterministic function of the
lower-cased URL into the closed category set; rule tables are checked in
priority order academic, docs, news with first match winning, so a URL
containing `"arxiv.org"` is academic, a URL containing `"github.com"` is docs
provided no academic-table entry matches, a URL containing `"techcrunch"` is
news provided no academic- or docs-table entry matches, and a string matching
no table entry is other. -/
theorem claim_C4_classifier :
    (∀ u v : String, strLower u = strLower v → categorizeUrl u = categorizeUrl v) ∧
    (∀ u : String, strHasSub (strLower u) "arxiv.org" = true →
      categorizeUrl u = .academic) ∧
    (∀ u : String, (∀ d ∈ academicDomains, strHasSub (strLower u) d = false) →
      strHasSub (strLower u) "github.com" = true → categorizeUrl u = .docs) ∧
    (∀ u : String, (∀ d ∈ academicDomains, strHasSub (strLower u) d = false) →
      (∀ d ∈ docsDomains, strHasSub (strLower u) d = false) →
      strHasSub (strLower u) "techcrunch" = true → categorizeUrl u = .news) ∧
    (∀ u : String,
      (∀ d ∈ academicDomains ++ docsDomains ++ newsDomains,
        strHasSub (strLower u) d = false) →
      categorizeUrl u = .other) := by
  refine ⟨?_, ?_, ?_, ?_, ?_⟩
  · intro u v h
    unfold categorizeUrl
    rw [h]
  · intro u h
    have ha := any_domain_true academicDomains "arxiv.org"
      (by decide) h
    simp [categorizeUrl, ha]
  · intro u hac h
    have ha := any_domain_false academicDomains hac
    have hd := any_domain_true docsDomains "github.com"
      (by decide) h
    simp [categorizeUrl, ha, hd]
  · intro u hac hdoc h
    have ha := any_domain_false academicDomains hac
    have hd := any_domain_false docsDomains hdoc
    have hn := any_domain_true newsDomains "techcrunch"
      (by decide) h
    simp [categorizeUrl, ha, hd, hn]
  · intro u hall
    have ha := any_domain_false academicDomains (fun d hd =>
      hall d (by simp [hd]))
    have hd := any_domain_false docsDomains (fun d hd =>
      hall d (by simp [hd]))
    have hn := any_domain_false newsDomains (fun d hd =>
      hall d (by simp [hd]))
    simp [categorizeUrl, ha, hd, hn]

/-- C4 counterexample: the claim's unconditional "every URL containing
`github.com` classifies as docs" fails — this URL contains `github.com` yet
classifies as academic, because the academic table is checked first. -/
theorem claim_C4_counterexample :
    strHasSub (strLower "arxiv.org/github.com") "github.com" = true ∧
    categorizeUrl "arxiv.org/github.com" ≠ Category.docs := by
  exact ⟨by decide, by decide⟩

/-- C4 witness: the amended theorem applied at concrete URLs. -/
theorem claim_C4_witness :
    categorizeUrl "https://ARXIV.org/abs/1" = Category.academic ∧
    categorizeUrl "https://example.org/page" = Category.other :=
  ⟨claim_C4_classifier.2.1 "https://ARXIV.org/abs/1" (by decide),
   claim_C4_classifier.2.2.2.2 "https://example.org/page" (by decide)⟩

/-- C5: on every result with a non-empty citation list the formatter emits the
`## References` heading and the groups in fixed display order academic, news,
docs, other, numbering each citation by its global 1-based position in the
de-duplicated citation sequence (filter view, never renumbered per group) and
skipping empty-url citations at render time while they still consume a
number; the claim's concrete example and an empty-url example are evaluated
explicitly. -/
theorem claim_C5_format :
    (∀ r : Result, r.citations ≠ [] →
      formatStructuredOutput r = specFormat r) ∧
    formatStructuredOutput
        ⟨"C", [⟨"a", "TA", .academic⟩, ⟨"b", "TB", .news⟩],
         none, "m", "s", none⟩ =
      "C\n\n\n## References\n\n\n### Academic Sources\n- [1] TA\n  URL: a\n\n### News & Industry\n- [2] TB\n  URL: b" ∧
    formatStructuredOutput
        ⟨"C", [⟨"a", "TA", .academic⟩, ⟨"", "T0", .docs⟩, ⟨"b", "TB", .news⟩],
         none, "m", "s", none⟩ =
      "C\n\n\n## References\n\n\n### Academic Sources\n- [1] TA\n  URL: a\n\n### News & Industry\n- [3] TB\n  URL: b\n\n### Documentation" :=
  ⟨fun r _ => format_eq_specFormat r, by decide, by decide⟩

/-- C5 witness: the equality applied at a concrete result with a non-empty
citation list. -/
theorem claim_C5_witness :
    formatStructuredOutput
        ⟨"X", [⟨"u", "T", .other⟩], none, "m", "s", none⟩ =
      specFormat ⟨"X", [⟨"u", "T", .other⟩], none, "m", "s", none⟩ :=
  claim_C5_format.1 _ (by decide)

/-- C6: usage accounting is mode-dependent — every deep-research usage record
yields `totalTokens = inputTokens + outputTokens` with each operand defaulting
to 0 (`{inputTokens:100, outputTokens:200}` gives 300), while the chat shape
copies the upstream-reported total as-is, defaulted to 0, and never recomputes
it (total 99 is kept even though 1 + 2 = 3). -/
theorem claim_C6_usage :
    (∀ (r : RawResponse) (us : Usage), (parseResponse r).usage = some us →
      us.totalTokens = us.inputTokens + us.outputTokens) ∧
    (∀ (r : RawResponse) (u : RespUsage), r.usage = some u →
      (parseResponse r).usage =
        some ⟨u.inputTokens.getD 0, u.outputTokens.getD 0,
              u.inputTokens.getD 0 + u.outputTokens.getD 0⟩) ∧
    (∀ (model : String) (resp : ChatResponse) (cu : ChatUsage),
      resp.usage = some cu →
      (chatSuccessResult model resp).usage =
        some ⟨cu.promptTokens.getD 0, cu.completionTokens.getD 0,
              cu.totalTokens.getD 0⟩) ∧
    (parseResponse
        ⟨"m", "completed", none, [], some ⟨some 100, some 200⟩⟩).usage =
      some ⟨100, 200, 300⟩ ∧
    (chatSuccessResult "sonar-pro" ⟨[], some ⟨some 1, some 2, some 99⟩⟩).usage =
      some ⟨1, 2, 99⟩ := by
  have hmap : ∀ r : RawResponse, (parseResponse r).usage =
      r.usage.map (fun u =>
        (⟨u.inputTokens.getD 0, u.outputTokens.getD 0,
          u.inputTokens.getD 0 + u.outputTokens.getD 0⟩ : Usage)) :=
    fun _ => rfl
  have hchat : ∀ (model : String) (resp : ChatResponse),
      (chatSuccessResult model resp).usage =
        resp.usage.map (fun u =>
          (⟨u.promptTokens.getD 0, u.completionTokens.getD 0,
            u.totalTokens.getD 0⟩ : Usage)) :=
    fun _ _ => rfl
  refine ⟨?_, ?_, ?_, by decide, by decide⟩
  · intro r us h
    rw [hmap r] at h
    cases hu : r.usage with
    | none => rw [hu] at h; simp at h
    | some u =>
        rw [hu] at h
        simp only [Option.map_some'] at h
        injection h with h2
        rw [← h2]
  · intro r u h
    rw [hmap r, h]
    rfl
  · intro model resp cu h
    rw [hchat model resp, h]
    rfl

/-- C6 witness: the deep-research conjuncts applied at the concrete usage
record `{inputTokens:100, outputTokens:200}`. -/
theorem claim_C6_witness :
    (⟨"m", "completed", none, [],
      some ⟨some 100, some 200⟩⟩ : RawResponse).usage =
        some ⟨some 100, some 200⟩ ∧
    (parseResponse
        ⟨"m", "completed", none, [], some ⟨some 100, some 200⟩⟩).usage =
      some ⟨100, 200, 300⟩ :=
  ⟨rfl, claim_C6_usage.2.1
    ⟨"m", "completed", none, [], some ⟨some 100, some 200⟩⟩
    ⟨some 100, some 200⟩ rfl⟩

/-- C7: a missing or empty `query` is rejected locally with the fixed message,
empty output, and zero collaborator calls. -/
theorem claim_C7_missing_query (cfg : Config) (env : Env) (input : ExecInput)
    (h : input.query = none ∨ input.query = some "") :
    execute cfg env input =
      (⟨false, "", some ⟨"Missing required parameter: query"⟩⟩, ⟨[], []⟩) := by
  rcases h with h | h <;> simp [execute, h, missingQueryResult]

/-- Concrete tool configuration used by witnesses. -/
def sampleCfg : Config := ⟨"medium", 5, "120.0"⟩

/-- C7 witness: `execute` on the empty input dict. -/
theorem claim_C7_witness :
    execute sampleCfg ⟨.error (.other "boom"), .error (.other "boom")⟩
        ExecInput.empty =
      (⟨false, "", some ⟨"Missing required parameter: query"⟩⟩, ⟨[], []⟩) :=
  claim_C7_missing_query sampleCfg _ ExecInput.empty (Or.inl rfl)

/-! ### Mode dispatch of `execute` -/

/-- The fallback annotation line naming the original research error. -/
def fallbackNoteOf (r : ToolResult) : String :=
  "(Fallback from Research API: " ++ (r.error.getD ⟨""⟩).message ++ ")"

lemma fallbackTriggered_eq (r : ToolResult) :
    fallbackTriggered r =
      ((!r.success && r.error.isSome) &&
        shouldFallback ((r.error.getD ⟨""⟩).message)) := by
  obtain ⟨s, o, e⟩ := r
  cases e <;> cases s <;> simp [fallbackTriggered]

lemma execute_chatMode (cfg : Config) (env : Env) (input : ExecInput)
    (q : String) (hq : input.query = some q) (hq2 : q ≠ "")
    (hc : input.mode.getD "auto" = "chat") :
    execute cfg env input =
      (executeChat (input.model.getD "sonar-pro") "" env.chat,
       ⟨[], [⟨q, input.model.getD "sonar-pro", resolvedInstructions input, ""⟩]⟩) := by
  simp [execute, hq, hq2, hc]

lemma execute_researchMode (cfg : Config) (env : Env) (input : ExecInput)
    (q : String) (hq : input.query = some q) (hq2 : q ≠ "")
    (hr : input.mode.getD "auto" = "research") :
    execute cfg env input =
      (executeResearch cfg env.research,
       ⟨[⟨q, input.reasoningEffort.getD cfg.reasoningEffort,
          input.maxSteps.getD cfg.maxSteps, resolvedInstructions input⟩], []⟩) := by
  simp [execute, hq, hq2, hr]

lemma execute_autoMode (cfg : Config) (env : Env) (input : ExecInput)
    (q : String) (hq : input.query = some q) (hq2 : q ≠ "")
    (h1 : input.mode.getD "auto" ≠ "chat")
    (h2 : input.mode.getD "auto" ≠ "research") :
    execute cfg env input =
      (if fallbackTriggered (executeResearch cfg env.research) then
        (executeChat (input.model.getD "sonar-pro")
           (fallbackNoteOf (executeResearch cfg env.research)) env.chat,
         ⟨[⟨q, input.reasoningEffort.getD cfg.reasoningEffort,
            input.maxSteps.getD cfg.maxSteps, resolvedInstructions input⟩],
          [⟨q, input.model.getD "sonar-pro", resolvedInstructions input,
            fallbackNoteOf (executeResearch cfg env.research)⟩]⟩)
      else
        (executeResearch cfg env.research,
         ⟨[⟨q, input.reasoningEffort.getD cfg.reasoningEffort,
            input.maxSteps.getD cfg.maxSteps, resolvedInstructions input⟩],
          []⟩)) := by
  have hft := fallbackTriggered_eq (executeResearch cfg env.research)
  by_cases hA : (!(executeResearch cfg env.research).success &&
      (executeResearch cfg env.research).error.isSome) = true
  · by_cases hB : shouldFallback
        (((executeResearch cfg env.research).error.getD ⟨""⟩).message) = true
    · have hf : fallbackTriggered (executeResearch cfg env.research) = true := by
        rw [hft, hA, hB]
        rfl
      simp [execute, hq, hq2, h1, h2, hA, hB, hf, fallbackNoteOf]
    · rw [Bool.not_eq_true] at hB
      have hf : fallbackTriggered (executeResearch cfg env.research) = false := by
        rw [hft, hB, Bool.and_false]
      simp [execute, hq, hq2, h1, h2, hA, hB, hf]
  · rw [Bool.not_eq_true] at hA
    have hf : fallbackTriggered (executeResearch cfg env.research) = false := by
      rw [hft, hA, Bool.false_and]
    simp [execute, hq, hq2, h1, h2, hA, hf]

lemma append_ne_empty (s t : String) (hs : s.length ≠ 0) : s ++ t ≠ "" := by
  intro h
  have hlen := congrArg String.length h
  rw [String.length_append] at hlen
  simp at hlen
  exact hs hlen.1

lemma fallbackNoteOf_ne_empty (r : ToolResult) : fallbackNoteOf r ≠ "" := by
  unfold fallbackNoteOf
  apply append_ne_empty
  rw [String.length_append]
  have : "(Fallback from Research API: ".length ≠ 0 := by decide
  omega

/-- C1: in auto mode (absent or `"auto"`), `execute` first issues exactly one
deep-research attempt; exactly when that attempt fails with a trigger-matching
error message, one chat fallback with the same query and instructions is
issued and its outcome is returned as the final outcome, a successful fallback
output being prefixed by the annotation line naming the original error; a
non-matching failure is returned untouched with no chat call, and at most two
upstream attempts occur. -/
theorem claim_C1_auto_fallback (cfg : Config) (env : Env) (input : ExecInput)
    (q : String) (hq : input.query = some q) (hq2 : q ≠ "")
    (hm : input.mode = none ∨ input.mode = some "auto") :
    (execute cfg env input).2.researchCalls =
      [⟨q, input.reasoningEffort.getD cfg.reasoningEffort,
        input.maxSteps.getD cfg.maxSteps, resolvedInstructions input⟩] ∧
    (fallbackTriggered (executeResearch cfg env.research) = false →
      (execute cfg env input).1 = executeResearch cfg env.research ∧
      (execute cfg env input).2.chatCalls = []) ∧
    (fallbackTriggered (executeResearch cfg env.research) = true →
      (execute cfg env input).2.chatCalls =
        [⟨q, input.model.getD "sonar-pro", resolvedInstructions input,
          fallbackNoteOf (executeResearch cfg env.research)⟩] ∧
      (execute cfg env input).1 =
        executeChat (input.model.getD "sonar-pro")
          (fallbackNoteOf (executeResearch cfg env.research)) env.chat ∧
      (∀ cr : ChatResponse, env.chat = .ok cr →
        (execute cfg env input).1.output =
          fallbackNoteOf (executeResearch cfg env.research) ++ "\n\n" ++
            formatStructuredOutput
              (chatSuccessResult (input.model.getD "sonar-pro") cr))) ∧
    (execute cfg env input).2.researchCalls.length +
      (execute cfg env input).2.chatCalls.length ≤ 2 := by
  have hm1 : input.mode.getD "auto" = "auto" := by
    rcases hm with h | h <;> rw [h] <;> rfl
  have h1 : input.mode.getD "auto" ≠ "chat" := by rw [hm1]; decide
  have h2 : input.mode.getD "auto" ≠ "research" := by rw [hm1]; decide
  rw [execute_autoMode cfg env input q hq hq2 h1 h2]
  by_cases hf : fallbackTriggered (executeResearch cfg env.research) = true
  · rw [if_pos hf]
    refine ⟨rfl, ?_, ?_, by simp⟩
    · intro hff
      rw [hf] at hff
      cases hff
    · intro _
      refine ⟨rfl, rfl, ?_⟩
      intro cr hcr
      rw [hcr]
      simp [executeChat,
        fallbackNoteOf_ne_empty (executeResearch cfg env.research)]
  · rw [Bool.not_eq_true] at hf
    rw [if_neg (by simp [hf])]
    exact ⟨rfl, fun _ => ⟨rfl, rfl⟩,
      fun h => absurd h (by simp [hf]), by simp⟩

/-- C1 witness: a concrete 429 research failure in auto mode issues exactly
the one annotated chat fallback. -/
theorem claim_C1_witness :
    ("q" : String) ≠ "" ∧
    (execute sampleCfg ⟨.error (.status 429 none), .ok ⟨[], none⟩⟩
        ⟨some "q", none, none, none, none, none⟩).2.chatCalls =
      [⟨"q", "sonar-pro",
        "Provide thorough, well-researched answers with citations.",
        "(Fallback from Research API: API error 429)"⟩] :=
  ⟨by decide,
   ((claim_C1_auto_fallback sampleCfg
        ⟨.error (.status 429 none), .ok ⟨[], none⟩⟩
        ⟨some "q", none, none, none, none, none⟩ "q" rfl (by decide)
        (Or.inl rfl)).2.2.1 (by decide)).1⟩

/-- C10: every mode value other than exactly `"chat"` and `"research"` —
including an absent mode and unrecognized strings such as `"AUTO"` — is
handled by the auto path: `execute` behaves exactly as with mode `"auto"`,
with no rejection of unknown modes. -/
theorem claim_C10_unknown_mode (cfg : Config) (env : Env) (input : ExecInput) :
    (∀ m : String, input.mode = some m → m ≠ "chat" → m ≠ "research" →
      execute cfg env input =
        execute cfg env { input with mode := some "auto" }) ∧
    (input.mode = none →
      execute cfg env input =
        execute cfg env { input with mode := some "auto" }) := by
  constructor
  · intro m hm h1 h2
    cases hqq : input.query with
    | none => simp [execute, hqq]
    | some qq =>
        by_cases hq2 : qq = ""
        · simp [execute, hqq, hq2]
        · rw [execute_autoMode cfg env input qq hqq hq2
              (by rw [hm]; simpa using h1) (by rw [hm]; simpa using h2),
            execute_autoMode cfg env
              ⟨some qq, some "auto", input.model, input.reasoningEffort,
               input.maxSteps, input.instructions⟩ qq rfl hq2
              (by simp) (by simp)]
          simp [resolvedInstructions]
  · intro hm
    cases hqq : input.query with
    | none => simp [execute, hqq]
    | some qq =>
        by_cases hq2 : qq = ""
        · simp [execute, hqq, hq2]
        · rw [execute_autoMode cfg env input qq hqq hq2
              (by rw [hm]; decide) (by rw [hm]; decide),
            execute_autoMode cfg env
              ⟨some qq, some "auto", input.model, input.reasoningEffort,
               input.maxSteps, input.instructions⟩ qq rfl hq2
              (by simp) (by simp)]
          simp [resolvedInstructions]

/-- C10 witness: mode `"AUTO"` behaves exactly like mode `"auto"`. -/
theorem claim_C10_witness :
    execute sampleCfg ⟨.error (.other "x"), .error (.other "y")⟩
        ⟨some "q", some "AUTO", none, none, none, none⟩ =
      execute sampleCfg ⟨.error (.other "x"), .error (.other "y")⟩
        ⟨some "q", some "auto", none, none, none, none⟩ :=
  (claim_C10_unknown_mode sampleCfg ⟨.error (.other "x"), .error (.other "y")⟩
      ⟨some "q", some "AUTO", none, none, none, none⟩).1
    "AUTO" rfl (by decide) (by decide)

lemma researchFailure_result (cfg : Config) (e : ResearchFailure) :
    (executeResearch cfg (.error e)).success = false ∧
    ∃ m, (executeResearch cfg (.error e)).error = some ⟨m⟩ ∧ m ≠ "" := by
  cases e with
  | rateLimit msg =>
      exact ⟨rfl, _, rfl, append_ne_empty _ _ (by decide)⟩
  | timeout =>
      refine ⟨rfl, _, rfl, ?_⟩
      apply append_ne_empty
      rw [String.length_append]
      have : "Research request timed out after ".length ≠ 0 := by decide
      omega
  | badRequest msg =>
      exact ⟨rfl, _, rfl, append_ne_empty _ _ (by decide)⟩
  | status code msg =>
      cases msg with
      | none => exact ⟨rfl, _, rfl, append_ne_empty _ _ (by decide)⟩
      | some s =>
          refine ⟨rfl, _, rfl, ?_⟩
          dsimp only
          by_cases hs : s ≠ ""
          · rw [if_pos hs]
            apply append_ne_empty
            rw [String.length_append, String.length_append]
            have : "API error ".length ≠ 0 := by decide
            omega
          · rw [if_neg hs]
            exact append_ne_empty _ _ (by decide)
  | connection msg =>
      exact ⟨rfl, _, rfl, append_ne_empty _ _ (by decide)⟩
  | other msg =>
      exact ⟨rfl, _, rfl, append_ne_empty _ _ (by decide)⟩

lemma chatFailure_result (model note : String) (e : ChatFailure) :
    (executeChat model note (.error e)).success = false ∧
    ∃ m, (executeChat model note (.error e)).error = some ⟨m⟩ ∧ m ≠ "" := by
  cases e with
  | rateLimit msg =>
      exact ⟨rfl, _, rfl, append_ne_empty _ _ (by decide)⟩
  | status code msg =>
      cases msg with
      | none => exact ⟨rfl, _, rfl, append_ne_empty _ _ (by decide)⟩
      | some s =>
          refine ⟨rfl, _, rfl, ?_⟩
          dsimp only
          by_cases hs : s ≠ ""
          · rw [if_pos hs]
            apply append_ne_empty
            rw [String.length_append, String.length_append]
            have : "Chat API error ".length ≠ 0 := by decide
            omega
          · rw [if_neg hs]
            exact append_ne_empty _ _ (by decide)
  | other msg =>
      exact ⟨rfl, _, rfl, append_ne_empty _ _ (by decide)⟩

/-- C8: for every non-empty query and every classified collaborator failure
kind on both request paths, `execute` returns a well-formed failed outcome —
`success = false` with a non-empty error message — rather than propagating a
fault (totality of the embedding models the absence of uncaught exceptions). -/
theorem claim_C8_no_uncaught_fault (cfg : Config) (env : Env)
    (input : ExecInput) (q : String) (eR : ResearchFailure) (eC : ChatFailure)
    (hq : input.query = some q) (hq2 : q ≠ "")
    (hR : env.research = .error eR) (hC : env.chat = .error eC) :
    (execute cfg env input).1.success = false ∧
    ∃ m, (execute cfg env input).1.error = some ⟨m⟩ ∧ m ≠ "" := by
  by_cases hc : input.mode.getD "auto" = "chat"
  · rw [execute_chatMode cfg env input q hq hq2 hc]
    rw [hC]
    exact chatFailure_result (input.model.getD "sonar-pro") "" eC
  · by_cases hr : input.mode.getD "auto" = "research"
    · rw [execute_researchMode cfg env input q hq hq2 hr]
      rw [hR]
      exact researchFailure_result cfg eR
    · rw [execute_autoMode cfg env input q hq hq2 hc hr, hR, hC]
      by_cases hf :
          fallbackTriggered (executeResearch cfg (.error eR)) = true
      · rw [if_pos hf]
        exact chatFailure_result (input.model.getD "sonar-pro")
          (fallbackNoteOf (executeResearch cfg (.error eR))) eC
      · rw [if_neg hf]
        exact researchFailure_result cfg eR

/-- C8 witness: a timed-out research request in research mode yields a failed
well-formed outcome. -/
theorem claim_C8_witness :
    (execute sampleCfg ⟨.error .timeout, .error (.other "x")⟩
        ⟨some "q", some "research", none, none, none, none⟩).1.success =
      false ∧
    (execute sampleCfg ⟨.error .timeout, .error (.other "x")⟩
        ⟨some "q", some "research", none, none, none, none⟩).1.error =
      some ⟨"Research request timed out after 120.0s"⟩ :=
  ⟨(claim_C8_no_uncaught_fault sampleCfg
      ⟨.error .timeout, .error (.other "x")⟩
      ⟨some "q", some "research", none, none, none, none⟩ "q" .timeout
      (.other "x") rfl (by decide) rfl rfl).1, by decide⟩

/-- C3 counterexample: after `close()` the handle is not unusable — with an
api key configured, the next client access succeeds and re-creates a fresh
client instead of failing fast. -/
theorem claim_C3_counterexample :
    clientGet 1 (closeClient ⟨some "key", some 0⟩) =
      .ok (1, ⟨some "key", some 1⟩) := rfl

/-- C3 (amended): `close()` twice in a row is a no-op and never raises, and
`close()` returns the handle to the uninitialized state: a subsequent client
access lazily re-creates a fresh client when an api key is configured, and
fails (the `ValueError` message) only when no api key is configured. -/
theorem claim_C3_close_behavior :
    (∀ s : ClientState, closeClient (closeClient s) = closeClient s) ∧
    (∀ s : ClientState, (closeClient s).client = none) ∧
    (∀ (s : ClientState) (k : String) (fresh : Nat), s.apiKey = some k →
      clientGet fresh (closeClient s) = .ok (fresh, ⟨some k, some fresh⟩)) ∧
    (∀ (s : ClientState) (fresh : Nat), s.apiKey = none →
      clientGet fresh (closeClient s) =
        .error "api_key must be provided for API calls") := by
  refine ⟨fun s => rfl, fun s => rfl, ?_, ?_⟩
  · intro s k fresh h
    simp [clientGet, closeClient, h]
  · intro s fresh h
    simp [clientGet, closeClient, h]

/-- C3 witness: the amended theorem applied at a concrete closed handle. -/
theorem claim_C3_witness :
    clientGet 7 (closeClient ⟨some "k", some 3⟩) =
      .ok (7, ⟨some "k", some 7⟩) :=
  claim_C3_close_behavior.2.2.1 ⟨some "k", some 3⟩ "k" 7 rfl

/-- C9: the URL classifier and deep-research response normalizer of the two
module variants (preset-based single-mode and auto/fallback) are
extensionally equal functions. -/
theorem claim_C9_variants_equal :
    (∀ url : String, SingleMode.categorizeUrl url = categorizeUrl url) ∧
    (∀ r : RawResponse, SingleMode.parseResponse r = parseResponse r) :=
  ⟨fun _ => rfl, fun _ => rfl⟩

end Perplexity
